import Mathlib

/-!
Shallow embedding of the audio routing engine (`audioContext.ts`) of this
repository, together with the middleware handler `_handleSoundOptionChange`.

The module state of `audioContext.ts` consists of the lazily created
`StereoPannerNode` (its `pan` AudioParam), the current audio mode string, the
set of tracked source nodes (`connectedSources`, a JS `Set` iterated in
insertion order, modelled as a duplicate-free list), and the live graph
topology.  Source nodes are identified by natural numbers.  The topology is
described by the set of sources with a direct edge to `context.destination`
(`toDest`), the set of sources with an edge into the panner (`toPan`), and
whether the panner is connected to the destination (`panToDest`).

Connect/disconnect calls on a source node can throw in the Web Audio API; this
is modelled by two fault oracles passed explicitly: `cf` lists the sources
whose `connect` throws, `df` those whose `disconnect` throws.  Operations that
can propagate an exception return `EngineState × Option AudioErr`; mutations
performed before a throw survive it, as in JavaScript.

Log output through the logging collaborator is part of the state (`log`), one
event per `logger.*` call site, tagged with the call site's message.
-/

/-- Severity of a record emitted through the logging collaborator. -/
inductive LogLevel
  | info
  | warn
  | error
  | debug
deriving DecidableEq, Repr

/-- One structured log record: severity plus the call site's message text. -/
structure LogEvent where
  level : LogLevel
  msg : String
deriving DecidableEq, Repr

/-- The `pan` AudioParam of the `StereoPannerNode`: its current value and the
queue of `setValueAtTime` automation events, as (time, value) pairs. -/
structure PanParam where
  value : ℚ
  events : List (ℚ × ℚ)
deriving DecidableEq, Repr

/-- A connect/disconnect operation on an audio node failed. -/
inductive AudioErr
  | connectionError
deriving DecidableEq, Repr

/-- The whole module-level state of `audioContext.ts`. -/
structure EngineState where
  panner : Option PanParam
  currentAudioMode : String
  connectedSources : List Nat
  toDest : List Nat
  toPan : List Nat
  panToDest : Bool
  log : List LogEvent
deriving DecidableEq, Repr

/-- `Math.max(-1, Math.min(1, v))`, the clamp used throughout the source,
written with explicit comparisons so that it evaluates by `decide`. -/
def clamp (v : ℚ) : ℚ := if v ≤ -1 then -1 else if 1 ≤ v then 1 else v

/-- JS `Set.add` / idempotent edge creation: append `n` unless present. -/
def addOnce (n : Nat) (l : List Nat) : List Nat := if n ∈ l then l else l ++ [n]

/-- Removal of every edge of node `n` from an edge set (`disconnect()`). -/
def removeEdge (n : Nat) (l : List Nat) : List Nat := l.filter (fun x => x ≠ n)

def evPannerCreated : LogEvent := ⟨.info, "StereoPannerNode erfolgreich erstellt"⟩
def evPanSet : LogEvent := ⟨.debug, "Pan-Wert gesetzt"⟩
def evRouted : LogEvent := ⟨.info, "Audio erfolgreich durch StereoPannerNode geroutet"⟩
def evRouteErr : LogEvent := ⟨.error, "Fehler beim Routing durch StereoPannerNode"⟩
def evPannerDisc : LogEvent := ⟨.info, "StereoPannerNode Verbindungen getrennt"⟩
def evDiscWarn : LogEvent := ⟨.warn, "Fehler beim Trennen einer Audio-Quelle"⟩
def evReconnWarn : LogEvent := ⟨.warn, "Fehler beim Neuverbinden einer Audio-Quelle"⟩
def evModeChanging : LogEvent := ⟨.info, "Audio-Modus wird geaendert"⟩
def evModeChanged : LogEvent := ⟨.info, "Audio-Modus erfolgreich geaendert"⟩
def evDirectRouted : LogEvent := ⟨.info, "Audio direkt zum Destination geroutet (Default-Modus)"⟩
def evConnectErr : LogEvent := ⟨.error, "Fehler beim Verbinden der Audio-Quelle"⟩
def evSoundOptChanging : LogEvent := ⟨.info, "Sound-Option wird geaendert"⟩
def evSoundOptErr : LogEvent := ⟨.error, "Fehler beim Anwenden der Sound-Option"⟩
def evUnknownOpt : LogEvent := ⟨.warn, "Unbekannte Sound-Option"⟩
def evDefaultMode : LogEvent := ⟨.info, "Default Audio-Modus aktiviert"⟩
def evStereoMode : LogEvent := ⟨.info, "StereoPanner Audio-Modus aktiviert"⟩
def evEqualMode : LogEvent := ⟨.info, "Equalpower Audio-Modus aktiviert"⟩
def evHrtfMode : LogEvent := ⟨.info, "HRTF Audio-Modus aktiviert"⟩

/-- `true` iff some warn-level event was recorded in `l`. -/
def hasWarn (l : List LogEvent) : Bool := l.any (fun e => e.level = LogLevel.warn)

/-- Module state at load time: no panner, mode `'default'`, nothing tracked. -/
def initState : EngineState :=
  { panner := none
    currentAudioMode := "default"
    connectedSources := []
    toDest := []
    toPan := []
    panToDest := false
    log := [] }

/-- `getStereoPannerNode(panValue = 0)`: create-or-get; on first call creates
the node with the clamped initial pan, later calls ignore the argument. -/
def getStereoPannerNode (panValue : ℚ) (s : EngineState) : EngineState :=
  match s.panner with
  | some _ => s
  | none =>
      { s with panner := some ⟨clamp panValue, []⟩, log := s.log ++ [evPannerCreated] }

/-- `getCurrentPanValue()`: the pan value, or 0 if no panner exists yet. -/
def getCurrentPanValue (s : EngineState) : ℚ :=
  match s.panner with
  | some p => p.value
  | none => 0

/-- `setPanValue(panValue, when?)`: ensure the panner exists, clamp, then
either assign `pan.value` (no `when`) or schedule via `setValueAtTime`. -/
def setPanValue (panValue : ℚ) (w : Option ℚ) (s : EngineState) : EngineState :=
  let s1 := getStereoPannerNode 0 s
  match s1.panner with
  | none => s1
  | some p =>
      match w with
      | some t =>
          { s1 with panner := some ⟨p.value, p.events ++ [(t, clamp panValue)]⟩
                    log := s1.log ++ [evPanSet] }
      | none =>
          { s1 with panner := some ⟨clamp panValue, p.events⟩
                    log := s1.log ++ [evPanSet] }

/-- `connectAudioThroughStereoPanner(sourceNode, panValue = 0)`: get/create the
panner, wire source → panner → destination, record the source in
`connectedSources`; on a connect fault the error is logged and rethrown and
nothing (except the panner creation) has happened. -/
def connectAudioThroughStereoPanner (cf : List Nat) (n : Nat) (panValue : ℚ)
    (s : EngineState) : EngineState × Option AudioErr :=
  let s1 := getStereoPannerNode panValue s
  if n ∈ cf then
    ({ s1 with log := s1.log ++ [evRouteErr] }, some AudioErr.connectionError)
  else
    ({ s1 with toPan := addOnce n s1.toPan
               panToDest := true
               connectedSources := addOnce n s1.connectedSources
               log := s1.log ++ [evRouted] }, none)

/-- `disconnectStereoPanner()`: sever the panner's outgoing connections if the
panner exists; a no-op otherwise. -/
def disconnectStereoPanner (s : EngineState) : EngineState :=
  match s.panner with
  | none => s
  | some _ => { s with panToDest := false, log := s.log ++ [evPannerDisc] }

/-- One iteration of the `_disconnectAllSources` loop: try to disconnect the
source, logging a warning (and keeping the edges) if its `disconnect` throws. -/
def disconnectSourceStep (df : List Nat) (s : EngineState) (n : Nat) : EngineState :=
  if n ∈ df then { s with log := s.log ++ [evDiscWarn] }
  else { s with toDest := removeEdge n s.toDest, toPan := removeEdge n s.toPan }

/-- `_disconnectAllSources()`: per-source disconnect with per-iteration
try/catch, then `disconnectStereoPanner()`. -/
def disconnectAllSources (df : List Nat) (s : EngineState) : EngineState :=
  disconnectStereoPanner (s.connectedSources.foldl (disconnectSourceStep df) s)

/-- One iteration of the `_reconnectSourcesWithMode` loop: wire the source per
`mode`, logging a warning and moving on if the wiring throws. -/
def reconnectStep (cf : List Nat) (mode : String) (s : EngineState) (n : Nat) :
    EngineState :=
  if mode = "stereopanner" then
    match connectAudioThroughStereoPanner cf n 0 s with
    | (s1, none) => s1
    | (s1, some _) => { s1 with log := s1.log ++ [evReconnWarn] }
  else
    if n ∈ cf then { s with log := s.log ++ [evReconnWarn] }
    else { s with toDest := addOnce n s.toDest }

/-- `_reconnectSourcesWithMode(mode)`: the batch rewiring loop. -/
def reconnectSourcesWithMode (cf : List Nat) (mode : String) (s : EngineState) :
    EngineState :=
  s.connectedSources.foldl (reconnectStep cf mode) s

/-- `setAudioMode(mode)`: disconnect everything, record the new mode verbatim,
reconnect everything per the new mode.  All the inner per-source failures are
caught, so no exception escapes. -/
def setAudioMode (mode : String) (cf df : List Nat) (s : EngineState) :
    EngineState × Option AudioErr :=
  let s0 := { s with log := s.log ++ [evModeChanging] }
  let s1 := disconnectAllSources df s0
  let s2 := { s1 with currentAudioMode := mode }
  let s3 := reconnectSourcesWithMode cf mode s2
  ({ s3 with log := s3.log ++ [evModeChanged] }, none)

/-- The state reached inside `setAudioMode` after the disconnect phase, the
mode update and the reconnect phase, just before the final success log. -/
def modePhase (m : String) (cf df : List Nat) (s : EngineState) : EngineState :=
  reconnectSourcesWithMode cf m
    { disconnectAllSources df { s with log := s.log ++ [evModeChanging] } with
        currentAudioMode := m }

/-- `getCurrentAudioMode()`: pure read of the stored mode string. -/
def getCurrentAudioMode (s : EngineState) : String := s.currentAudioMode

/-- `connectAudioSource(sourceNode)`: add to `connectedSources`, then wire per
the current mode; a wiring failure is logged and rethrown to the caller, with
the set mutation left in place. -/
def connectAudioSource (cf : List Nat) (n : Nat) (s : EngineState) :
    EngineState × Option AudioErr :=
  let s1 := { s with connectedSources := addOnce n s.connectedSources }
  if s1.currentAudioMode = "stereopanner" then
    match connectAudioThroughStereoPanner cf n 0 s1 with
    | (s2, none) => (s2, none)
    | (s2, some e) => ({ s2 with log := s2.log ++ [evConnectErr] }, some e)
  else
    if n ∈ cf then
      ({ s1 with log := s1.log ++ [evConnectErr] }, some AudioErr.connectionError)
    else
      ({ s1 with toDest := addOnce n s1.toDest
                 log := s1.log ++ [evDirectRouted] }, none)

/-- `_handleSoundOptionChange(store, soundOption)` from the toolbox middleware:
logs, calls `setAudioMode` inside try/catch, then logs a per-option message —
a warning exactly when the option string is not one of the four modes. -/
def handleSoundOptionChange (cf df : List Nat) (opt : String) (s : EngineState) :
    EngineState :=
  let s0 := { s with log := s.log ++ [evSoundOptChanging] }
  match setAudioMode opt cf df s0 with
  | (s1, some _) => { s1 with log := s1.log ++ [evSoundOptErr] }
  | (s1, none) =>
      if opt = "default" then { s1 with log := s1.log ++ [evDefaultMode] }
      else if opt = "stereopanner" then { s1 with log := s1.log ++ [evStereoMode] }
      else if opt = "equalpower" then { s1 with log := s1.log ++ [evEqualMode] }
      else if opt = "hrtf" then { s1 with log := s1.log ++ [evHrtfMode] }
      else { s1 with log := s1.log ++ [evUnknownOpt] }

/-- The engine states reachable through the fault-free public RoutingEngine
operations (`connectAudioSource`, `setAudioMode` with an arbitrary mode
string, `setPanValue`), starting from the module-load state. -/
inductive Reachable : EngineState → Prop
  | init : Reachable initState
  | connect (n : Nat) (s : EngineState) :
      Reachable s → Reachable (connectAudioSource [] n s).1
  | mode (m : String) (s : EngineState) :
      Reachable s → Reachable (setAudioMode m [] [] s).1
  | pan (v : ℚ) (w : Option ℚ) (s : EngineState) :
      Reachable s → Reachable (setPanValue v w s)

/-- Structural invariant of fault-free reachable states: the tracked source
list is duplicate-free and the topology agrees exactly with the current mode
(`stereopanner` routes every tracked source through the panner, any other mode
string routes every tracked source directly to the destination). -/
def EngineInv (s : EngineState) : Prop :=
  s.connectedSources.Nodup ∧
  (s.currentAudioMode = "stereopanner" →
    s.toDest = [] ∧ s.toPan = s.connectedSources ∧
    s.panToDest = !s.connectedSources.isEmpty ∧
    (s.connectedSources ≠ [] → s.panner.isSome)) ∧
  (s.currentAudioMode ≠ "stereopanner" →
    s.toPan = [] ∧ s.toDest = s.connectedSources ∧ s.panToDest = false)

/-- A small concrete state used by witnesses: one source (node 4) tracked and
wired directly to the destination in `default` mode. -/
def oneSourceState : EngineState :=
  { panner := none
    currentAudioMode := "default"
    connectedSources := [4]
    toDest := [4]
    toPan := []
    panToDest := false
    log := [] }

/-- A concrete state used by witnesses: two sources (3 and 7) tracked and
wired directly to the destination in `default` mode. -/
def twoSourceState : EngineState :=
  { panner := none
    currentAudioMode := "default"
    connectedSources := [3, 7]
    toDest := [3, 7]
    toPan := []
    panToDest := false
    log := [] }

example : (setAudioMode "stereopanner" [] [] initState).2 = none := by decide

example :
    getCurrentPanValue
      (setPanValue 2 none (setAudioMode "stereopanner" [] [] initState).1) =
      1 := by decide

theorem mem_addOnce {x n : Nat} {l : List Nat} :
    x ∈ addOnce n l ↔ x ∈ l ∨ x = n := by
  unfold addOnce
  by_cases h : n ∈ l
  · rw [if_pos h]
    constructor
    · exact Or.inl
    · rintro (hx | rfl)
      · exact hx
      · exact h
  · rw [if_neg h]
    simp [List.mem_append]

theorem addOnce_of_mem {n : Nat} {l : List Nat} (h : n ∈ l) : addOnce n l = l :=
  if_pos h

theorem nodup_addOnce {n : Nat} {l : List Nat} (h : l.Nodup) :
    (addOnce n l).Nodup := by
  unfold addOnce
  by_cases hm : n ∈ l
  · rwa [if_pos hm]
  · rw [if_neg hm]
    simp [List.nodup_append, h, hm]

theorem count_addOnce {n : Nat} {l : List Nat} (h : l.count n ≤ 1) :
    (addOnce n l).count n = 1 := by
  unfold addOnce
  by_cases hm : n ∈ l
  · rw [if_pos hm]
    have h1 : 0 < l.count n := List.count_pos_iff.mpr hm
    omega
  · rw [if_neg hm]
    have h0 : l.count n = 0 := List.count_eq_zero.mpr hm
    simp [List.count_append, h0]

theorem mem_removeEdge {x n : Nat} {l : List Nat} :
    x ∈ removeEdge n l ↔ x ∈ l ∧ x ≠ n := by
  simp [removeEdge, List.mem_filter]

theorem foldl_addOnce_of_subset {l acc : List Nat} (h : ∀ x ∈ l, x ∈ acc) :
    l.foldl (fun a n => addOnce n a) acc = acc := by
  induction l generalizing acc with
  | nil => rfl
  | cons n t ih =>
      simp only [List.foldl_cons]
      rw [addOnce_of_mem (h n (by simp))]
      exact ih fun x hx => h x (by simp [hx])

theorem foldl_addOnce_of_disjoint {l acc : List Nat} (hnd : l.Nodup)
    (h : ∀ x ∈ l, x ∉ acc) :
    l.foldl (fun a n => addOnce n a) acc = acc ++ l := by
  induction l generalizing acc with
  | nil => simp
  | cons n t ih =>
      simp only [List.foldl_cons]
      have hn : n ∉ acc := h n (by simp)
      have hstep : addOnce n acc = acc ++ [n] := if_neg hn
      rw [hstep, ih (List.Nodup.of_cons hnd)]
      · simp
      · intro x hx
        simp only [List.mem_append, List.mem_singleton]
        rintro (hacc | rfl)
        · exact h x (by simp [hx]) hacc
        · exact (List.nodup_cons.mp hnd).1 hx

theorem clamp_eq_maxmin (v : ℚ) : clamp v = max (-1) (min 1 v) := by
  unfold clamp
  by_cases h1 : v ≤ -1
  · rw [if_pos h1, min_eq_right (h1.trans (by norm_num)), max_eq_left h1]
  · rw [if_neg h1]
    by_cases h2 : 1 ≤ v
    · rw [if_pos h2, min_eq_left h2, max_eq_right (by norm_num : (-1 : ℚ) ≤ 1)]
    · rw [if_neg h2, min_eq_right (le_of_not_le h2),
        max_eq_right (le_of_not_le h1)]

theorem clamp_zero : clamp 0 = 0 := by norm_num [clamp]

theorem gspn_fields (v : ℚ) (s : EngineState) :
    (getStereoPannerNode v s).currentAudioMode = s.currentAudioMode ∧
    (getStereoPannerNode v s).connectedSources = s.connectedSources ∧
    (getStereoPannerNode v s).toDest = s.toDest ∧
    (getStereoPannerNode v s).toPan = s.toPan ∧
    (getStereoPannerNode v s).panToDest = s.panToDest := by
  rcases h : s.panner with _ | p <;> simp [getStereoPannerNode, h]

theorem gspn_isSome (v : ℚ) (s : EngineState) :
    (getStereoPannerNode v s).panner.isSome := by
  rcases h : s.panner with _ | p <;> simp [getStereoPannerNode, h]

theorem gspn_panner_of_some {s : EngineState} {p : PanParam} (v : ℚ)
    (h : s.panner = some p) : (getStereoPannerNode v s).panner = some p := by
  simp [getStereoPannerNode, h]

theorem gspn_panValue (s : EngineState) :
    getCurrentPanValue (getStereoPannerNode 0 s) = getCurrentPanValue s := by
  rcases h : s.panner with _ | p <;>
    simp [getStereoPannerNode, getCurrentPanValue, h, clamp_zero]

theorem gspn_log_extend (v : ℚ) (s : EngineState) :
    ∃ t, (getStereoPannerNode v s).log = s.log ++ t := by
  rcases h : s.panner with _ | p
  · exact ⟨[evPannerCreated], by simp [getStereoPannerNode, h]⟩
  · exact ⟨[], by simp [getStereoPannerNode, h]⟩

theorem setPanValue_panValue (v : ℚ) (s : EngineState) :
    getCurrentPanValue (setPanValue v none s) = clamp v := by
  rcases h : s.panner with _ | p <;>
    simp [setPanValue, getStereoPannerNode, getCurrentPanValue, h]

theorem setPanValue_sched (v t : ℚ) (s : EngineState) :
    ∃ p, (setPanValue v (some t) s).panner = some p ∧
      p.events.getLast? = some (t, clamp v) ∧
      p.value = getCurrentPanValue s := by
  rcases h : s.panner with _ | p
  · refine ⟨⟨clamp 0, [(t, clamp v)]⟩, ?_, by simp, by simp [getCurrentPanValue, h, clamp_zero]⟩
    simp [setPanValue, getStereoPannerNode, h]
  · refine ⟨⟨p.value, p.events ++ [(t, clamp v)]⟩, ?_, by simp, by simp [getCurrentPanValue, h]⟩
    simp [setPanValue, getStereoPannerNode, h]

theorem setPanValue_fields (v : ℚ) (w : Option ℚ) (s : EngineState) :
    (setPanValue v w s).currentAudioMode = s.currentAudioMode ∧
    (setPanValue v w s).connectedSources = s.connectedSources ∧
    (setPanValue v w s).toDest = s.toDest ∧
    (setPanValue v w s).toPan = s.toPan ∧
    (setPanValue v w s).panToDest = s.panToDest := by
  rcases h : s.panner with _ | p <;> rcases w with _ | t <;>
    simp [setPanValue, getStereoPannerNode, h]

theorem setPanValue_isSome (v : ℚ) (w : Option ℚ) (s : EngineState) :
    (setPanValue v w s).panner.isSome := by
  rcases h : s.panner with _ | p <;> rcases w with _ | t <;>
    simp [setPanValue, getStereoPannerNode, h]

theorem log_extend_trans {l1 l2 l3 : List LogEvent}
    (h12 : ∃ t, l2 = l1 ++ t) (h23 : ∃ t, l3 = l2 ++ t) :
    ∃ t, l3 = l1 ++ t := by
  rcases h12 with ⟨a, rfl⟩
  rcases h23 with ⟨b, rfl⟩
  exact ⟨a ++ b, List.append_assoc l1 a b⟩

theorem mem_of_log_extend {l1 l2 : List LogEvent} {e : LogEvent}
    (h : ∃ t, l2 = l1 ++ t) (he : e ∈ l1) : e ∈ l2 := by
  rcases h with ⟨t, rfl⟩
  exact List.mem_append_left t he

theorem discStep_fields (df : List Nat) (s : EngineState) (n : Nat) :
    (disconnectSourceStep df s n).connectedSources = s.connectedSources ∧
    (disconnectSourceStep df s n).currentAudioMode = s.currentAudioMode ∧
    (disconnectSourceStep df s n).panner = s.panner ∧
    (disconnectSourceStep df s n).panToDest = s.panToDest := by
  unfold disconnectSourceStep
  split <;> simp

theorem discFold_fields (df : List Nat) (l : List Nat) (s : EngineState) :
    (l.foldl (disconnectSourceStep df) s).connectedSources = s.connectedSources ∧
    (l.foldl (disconnectSourceStep df) s).currentAudioMode = s.currentAudioMode ∧
    (l.foldl (disconnectSourceStep df) s).panner = s.panner ∧
    (l.foldl (disconnectSourceStep df) s).panToDest = s.panToDest := by
  induction l generalizing s with
  | nil => exact ⟨rfl, rfl, rfl, rfl⟩
  | cons n t ih =>
      simp only [List.foldl_cons]
      obtain ⟨h1, h2, h3, h4⟩ := ih (disconnectSourceStep df s n)
      obtain ⟨g1, g2, g3, g4⟩ := discStep_fields df s n
      exact ⟨h1.trans g1, h2.trans g2, h3.trans g3, h4.trans g4⟩

theorem discFold_mem_toDest (df : List Nat) (l : List Nat) (s : EngineState)
    (x : Nat) :
    x ∈ (l.foldl (disconnectSourceStep df) s).toDest ↔
      x ∈ s.toDest ∧ ¬(x ∈ l ∧ x ∉ df) := by
  induction l generalizing s with
  | nil => simp
  | cons n t ih =>
      simp only [List.foldl_cons]
      rw [ih]
      unfold disconnectSourceStep
      by_cases hdf : n ∈ df
      · rw [if_pos hdf]
        simp only [List.mem_cons]
        by_cases hx : x = n
        · subst hx; tauto
        · tauto
      · rw [if_neg hdf]
        simp only [mem_removeEdge, List.mem_cons]
        by_cases hx : x = n
        · subst hx; tauto
        · tauto

theorem discFold_mem_toPan (df : List Nat) (l : List Nat) (s : EngineState)
    (x : Nat) :
    x ∈ (l.foldl (disconnectSourceStep df) s).toPan ↔
      x ∈ s.toPan ∧ ¬(x ∈ l ∧ x ∉ df) := by
  induction l generalizing s with
  | nil => simp
  | cons n t ih =>
      simp only [List.foldl_cons]
      rw [ih]
      unfold disconnectSourceStep
      by_cases hdf : n ∈ df
      · rw [if_pos hdf]
        simp only [List.mem_cons]
        by_cases hx : x = n
        · subst hx; tauto
        · tauto
      · rw [if_neg hdf]
        simp only [mem_removeEdge, List.mem_cons]
        by_cases hx : x = n
        · subst hx; tauto
        · tauto

theorem discStep_log_extend (df : List Nat) (s : EngineState) (n : Nat) :
    ∃ t, (disconnectSourceStep df s n).log = s.log ++ t := by
  unfold disconnectSourceStep
  by_cases hdf : n ∈ df
  · exact ⟨[evDiscWarn], by rw [if_pos hdf]⟩
  · exact ⟨[], by rw [if_neg hdf]; simp⟩

theorem discFold_log_extend (df : List Nat) (l : List Nat) (s : EngineState) :
    ∃ t, (l.foldl (disconnectSourceStep df) s).log = s.log ++ t := by
  induction l generalizing s with
  | nil => exact ⟨[], by simp⟩
  | cons n t ih =>
      simp only [List.foldl_cons]
      exact log_extend_trans (discStep_log_extend df s n) (ih _)

theorem discFold_warn (df : List Nat) (l : List Nat) (s : EngineState) (x : Nat)
    (hx : x ∈ l) (hdf : x ∈ df) :
    evDiscWarn ∈ (l.foldl (disconnectSourceStep df) s).log := by
  induction l generalizing s with
  | nil => cases hx
  | cons n t ih =>
      simp only [List.foldl_cons]
      rcases List.mem_cons.mp hx with rfl | hxt
      · refine mem_of_log_extend (discFold_log_extend df t _) ?_
        unfold disconnectSourceStep
        rw [if_pos hdf]
        simp
      · exact ih _ hxt

theorem dsp_fields (s : EngineState) :
    (disconnectStereoPanner s).panner = s.panner ∧
    (disconnectStereoPanner s).currentAudioMode = s.currentAudioMode ∧
    (disconnectStereoPanner s).connectedSources = s.connectedSources ∧
    (disconnectStereoPanner s).toDest = s.toDest ∧
    (disconnectStereoPanner s).toPan = s.toPan := by
  rcases h : s.panner with _ | p <;> simp [disconnectStereoPanner, h]

theorem dsp_panToDest_isSome {s : EngineState} (h : s.panner.isSome) :
    (disconnectStereoPanner s).panToDest = false := by
  rcases hp : s.panner with _ | p
  · rw [hp] at h; cases h
  · simp [disconnectStereoPanner, hp]

theorem dsp_panToDest_none {s : EngineState} (h : s.panner = none) :
    (disconnectStereoPanner s).panToDest = s.panToDest := by
  simp [disconnectStereoPanner, h]

theorem dsp_log_extend (s : EngineState) :
    ∃ t, (disconnectStereoPanner s).log = s.log ++ t := by
  rcases h : s.panner with _ | p
  · exact ⟨[], by simp [disconnectStereoPanner, h]⟩
  · exact ⟨[evPannerDisc], by simp [disconnectStereoPanner, h]⟩

theorem dAS_fields (df : List Nat) (s : EngineState) :
    (disconnectAllSources df s).connectedSources = s.connectedSources ∧
    (disconnectAllSources df s).currentAudioMode = s.currentAudioMode ∧
    (disconnectAllSources df s).panner = s.panner := by
  unfold disconnectAllSources
  obtain ⟨f1, f2, f3, _⟩ := discFold_fields df s.connectedSources s
  obtain ⟨d1, d2, d3, _, _⟩ := dsp_fields (s.connectedSources.foldl (disconnectSourceStep df) s)
  exact ⟨d3.trans f1, d2.trans f2, d1.trans f3⟩

theorem dAS_mem_toDest (df : List Nat) (s : EngineState) (x : Nat) :
    x ∈ (disconnectAllSources df s).toDest ↔
      x ∈ s.toDest ∧ ¬(x ∈ s.connectedSources ∧ x ∉ df) := by
  unfold disconnectAllSources
  obtain ⟨_, _, _, d4, _⟩ := dsp_fields (s.connectedSources.foldl (disconnectSourceStep df) s)
  rw [d4, discFold_mem_toDest]

theorem dAS_mem_toPan (df : List Nat) (s : EngineState) (x : Nat) :
    x ∈ (disconnectAllSources df s).toPan ↔
      x ∈ s.toPan ∧ ¬(x ∈ s.connectedSources ∧ x ∉ df) := by
  unfold disconnectAllSources
  obtain ⟨_, _, _, _, d5⟩ := dsp_fields (s.connectedSources.foldl (disconnectSourceStep df) s)
  rw [d5, discFold_mem_toPan]

theorem dAS_panToDest_isSome (df : List Nat) {s : EngineState}
    (h : s.panner.isSome) : (disconnectAllSources df s).panToDest = false := by
  unfold disconnectAllSources
  obtain ⟨_, _, f3, _⟩ := discFold_fields df s.connectedSources s
  exact dsp_panToDest_isSome (by rw [f3]; exact h)

theorem dAS_panToDest_none (df : List Nat) {s : EngineState}
    (h : s.panner = none) : (disconnectAllSources df s).panToDest = s.panToDest := by
  unfold disconnectAllSources
  obtain ⟨f1, f2, f3, f4⟩ := discFold_fields df s.connectedSources s
  rw [dsp_panToDest_none (by rw [f3]; exact h)]
  exact f4

theorem dAS_log_extend (df : List Nat) (s : EngineState) :
    ∃ t, (disconnectAllSources df s).log = s.log ++ t := by
  unfold disconnectAllSources
  exact log_extend_trans (discFold_log_extend df s.connectedSources s) (dsp_log_extend _)

theorem dAS_warn (df : List Nat) (s : EngineState) (x : Nat)
    (hx : x ∈ s.connectedSources) (hdf : x ∈ df) :
    evDiscWarn ∈ (disconnectAllSources df s).log := by
  unfold disconnectAllSources
  exact mem_of_log_extend (dsp_log_extend _) (discFold_warn df s.connectedSources s x hx hdf)

theorem dAS_panValue (df : List Nat) (s : EngineState) :
    getCurrentPanValue (disconnectAllSources df s) = getCurrentPanValue s := by
  unfold getCurrentPanValue
  rw [(dAS_fields df s).2.2]

theorem panValue_congr {s1 s2 : EngineState} (h : s1.panner = s2.panner) :
    getCurrentPanValue s1 = getCurrentPanValue s2 := by
  unfold getCurrentPanValue
  rw [h]

theorem rsPanStep_toDest (cf : List Nat) (s : EngineState) (n : Nat) :
    (reconnectStep cf "stereopanner" s n).toDest = s.toDest := by
  unfold reconnectStep connectAudioThroughStereoPanner
  by_cases hcf : n ∈ cf <;> simp [hcf, (gspn_fields 0 s).2.2.1]

theorem rsPanStep_mode (cf : List Nat) (s : EngineState) (n : Nat) :
    (reconnectStep cf "stereopanner" s n).currentAudioMode = s.currentAudioMode := by
  unfold reconnectStep connectAudioThroughStereoPanner
  by_cases hcf : n ∈ cf <;> simp [hcf, (gspn_fields 0 s).1]

theorem rsPanStep_panner (cf : List Nat) (s : EngineState) (n : Nat) :
    (reconnectStep cf "stereopanner" s n).panner = (getStereoPannerNode 0 s).panner := by
  unfold reconnectStep connectAudioThroughStereoPanner
  by_cases hcf : n ∈ cf <;> simp [hcf]

theorem rsPanStep_panValue (cf : List Nat) (s : EngineState) (n : Nat) :
    getCurrentPanValue (reconnectStep cf "stereopanner" s n) = getCurrentPanValue s :=
  (panValue_congr (rsPanStep_panner cf s n)).trans (gspn_panValue s)

theorem rsPanStep_isSome (cf : List Nat) (s : EngineState) (n : Nat) :
    (reconnectStep cf "stereopanner" s n).panner.isSome := by
  rw [rsPanStep_panner]
  exact gspn_isSome 0 s

theorem rsPanStep_toPan (cf : List Nat) (s : EngineState) (n : Nat) :
    (reconnectStep cf "stereopanner" s n).toPan =
      if n ∈ cf then s.toPan else addOnce n s.toPan := by
  unfold reconnectStep connectAudioThroughStereoPanner
  by_cases hcf : n ∈ cf <;> simp [hcf, (gspn_fields 0 s).2.2.2.1]

theorem rsPanStep_sources (cf : List Nat) (s : EngineState) (n : Nat) :
    (reconnectStep cf "stereopanner" s n).connectedSources =
      if n ∈ cf then s.connectedSources else addOnce n s.connectedSources := by
  unfold reconnectStep connectAudioThroughStereoPanner
  by_cases hcf : n ∈ cf <;> simp [hcf, (gspn_fields 0 s).2.1]

theorem rsPanStep_panToDest (cf : List Nat) (s : EngineState) (n : Nat) :
    (reconnectStep cf "stereopanner" s n).panToDest =
      if n ∈ cf then s.panToDest else true := by
  unfold reconnectStep connectAudioThroughStereoPanner
  by_cases hcf : n ∈ cf <;> simp [hcf, (gspn_fields 0 s).2.2.2.2]

theorem rsPanStep_log_extend (cf : List Nat) (s : EngineState) (n : Nat) :
    ∃ t, (reconnectStep cf "stereopanner" s n).log = s.log ++ t := by
  unfold reconnectStep connectAudioThroughStereoPanner
  by_cases hcf : n ∈ cf
  · refine log_extend_trans (gspn_log_extend 0 s) ⟨[evRouteErr, evReconnWarn], ?_⟩
    simp [hcf]
  · refine log_extend_trans (gspn_log_extend 0 s) ⟨[evRouted], ?_⟩
    simp [hcf]

theorem rsPanStep_warn (cf : List Nat) (s : EngineState) (n : Nat) (hcf : n ∈ cf) :
    evReconnWarn ∈ (reconnectStep cf "stereopanner" s n).log := by
  unfold reconnectStep connectAudioThroughStereoPanner
  simp [hcf]

theorem rfPan_toDest (cf : List Nat) (l : List Nat) (s : EngineState) :
    (l.foldl (reconnectStep cf "stereopanner") s).toDest = s.toDest := by
  induction l generalizing s with
  | nil => rfl
  | cons n t ih =>
      simp only [List.foldl_cons]
      rw [ih, rsPanStep_toDest]

theorem rfPan_mode (cf : List Nat) (l : List Nat) (s : EngineState) :
    (l.foldl (reconnectStep cf "stereopanner") s).currentAudioMode =
      s.currentAudioMode := by
  induction l generalizing s with
  | nil => rfl
  | cons n t ih =>
      simp only [List.foldl_cons]
      rw [ih, rsPanStep_mode]

theorem rfPan_panValue (cf : List Nat) (l : List Nat) (s : EngineState) :
    getCurrentPanValue (l.foldl (reconnectStep cf "stereopanner") s) =
      getCurrentPanValue s := by
  induction l generalizing s with
  | nil => rfl
  | cons n t ih =>
      simp only [List.foldl_cons]
      rw [ih, rsPanStep_panValue]

theorem rfPan_isSome_pres (cf : List Nat) (l : List Nat) (s : EngineState)
    (h : s.panner.isSome) :
    (l.foldl (reconnectStep cf "stereopanner") s).panner.isSome := by
  induction l generalizing s with
  | nil => exact h
  | cons n t ih =>
      simp only [List.foldl_cons]
      exact ih _ (rsPanStep_isSome cf s n)

theorem rfPan_isSome_of_ne (cf : List Nat) {l : List Nat} (s : EngineState)
    (hl : l ≠ []) :
    (l.foldl (reconnectStep cf "stereopanner") s).panner.isSome := by
  cases l with
  | nil => cases hl rfl
  | cons n t =>
      simp only [List.foldl_cons]
      exact rfPan_isSome_pres cf t _ (rsPanStep_isSome cf s n)

theorem rfPan_mem_toPan (cf : List Nat) (l : List Nat) (s : EngineState) (x : Nat) :
    x ∈ (l.foldl (reconnectStep cf "stereopanner") s).toPan ↔
      x ∈ s.toPan ∨ (x ∈ l ∧ x ∉ cf) := by
  induction l generalizing s with
  | nil => simp
  | cons n t ih =>
      simp only [List.foldl_cons]
      rw [ih, rsPanStep_toPan]
      by_cases hcf : n ∈ cf
      · rw [if_pos hcf]
        simp only [List.mem_cons]
        by_cases hx : x = n
        · subst hx; tauto
        · tauto
      · rw [if_neg hcf]
        simp only [mem_addOnce, List.mem_cons]
        by_cases hx : x = n
        · subst hx; tauto
        · tauto

theorem rfPan_mem_sources (cf : List Nat) (l : List Nat) (s : EngineState) (x : Nat) :
    x ∈ (l.foldl (reconnectStep cf "stereopanner") s).connectedSources ↔
      x ∈ s.connectedSources ∨ (x ∈ l ∧ x ∉ cf) := by
  induction l generalizing s with
  | nil => simp
  | cons n t ih =>
      simp only [List.foldl_cons]
      rw [ih, rsPanStep_sources]
      by_cases hcf : n ∈ cf
      · rw [if_pos hcf]
        simp only [List.mem_cons]
        by_cases hx : x = n
        · subst hx; tauto
        · tauto
      · rw [if_neg hcf]
        simp only [mem_addOnce, List.mem_cons]
        by_cases hx : x = n
        · subst hx; tauto
        · tauto

theorem rfPan_sources_subset (cf : List Nat) (l : List Nat) (s : EngineState)
    (h : ∀ x ∈ l, x ∈ s.connectedSources) :
    (l.foldl (reconnectStep cf "stereopanner") s).connectedSources =
      s.connectedSources := by
  induction l generalizing s with
  | nil => rfl
  | cons n t ih =>
      simp only [List.foldl_cons]
      have hs : (reconnectStep cf "stereopanner" s n).connectedSources =
          s.connectedSources := by
        rw [rsPanStep_sources]
        by_cases hcf : n ∈ cf
        · rw [if_pos hcf]
        · rw [if_neg hcf, addOnce_of_mem (h n (by simp))]
      rw [ih]
      · exact hs
      · intro x hx
        rw [hs]
        exact h x (by simp [hx])

theorem rfPan_toPan_exact (l : List Nat) (s : EngineState) :
    (l.foldl (reconnectStep [] "stereopanner") s).toPan =
      l.foldl (fun a n => addOnce n a) s.toPan := by
  induction l generalizing s with
  | nil => rfl
  | cons n t ih =>
      simp only [List.foldl_cons]
      rw [ih, rsPanStep_toPan]
      simp

theorem rfPan_panToDest_exact (l : List Nat) (s : EngineState) :
    (l.foldl (reconnectStep [] "stereopanner") s).panToDest =
      (s.panToDest || !l.isEmpty) := by
  induction l generalizing s with
  | nil => simp
  | cons n t ih =>
      simp only [List.foldl_cons]
      rw [ih, rsPanStep_panToDest]
      simp

theorem rfPan_log_extend (cf : List Nat) (l : List Nat) (s : EngineState) :
    ∃ t, (l.foldl (reconnectStep cf "stereopanner") s).log = s.log ++ t := by
  induction l generalizing s with
  | nil => exact ⟨[], by simp⟩
  | cons n t ih =>
      simp only [List.foldl_cons]
      exact log_extend_trans (rsPanStep_log_extend cf s n) (ih _)

theorem rfPan_warn (cf : List Nat) (l : List Nat) (s : EngineState) (x : Nat)
    (hx : x ∈ l) (hcf : x ∈ cf) :
    evReconnWarn ∈ (l.foldl (reconnectStep cf "stereopanner") s).log := by
  induction l generalizing s with
  | nil => cases hx
  | cons n t ih =>
      simp only [List.foldl_cons]
      rcases List.mem_cons.mp hx with rfl | hxt
      · exact mem_of_log_extend (rfPan_log_extend cf t _) (rsPanStep_warn cf s x hcf)
      · exact ih _ hxt

theorem rsDefStep_fields {m : String} (hm : m ≠ "stereopanner") (cf : List Nat)
    (s : EngineState) (n : Nat) :
    (reconnectStep cf m s n).toPan = s.toPan ∧
    (reconnectStep cf m s n).panToDest = s.panToDest ∧
    (reconnectStep cf m s n).connectedSources = s.connectedSources ∧
    (reconnectStep cf m s n).panner = s.panner ∧
    (reconnectStep cf m s n).currentAudioMode = s.currentAudioMode := by
  unfold reconnectStep
  rw [if_neg hm]
  by_cases hcf : n ∈ cf <;> simp [hcf]

theorem rsDefStep_toDest {m : String} (hm : m ≠ "stereopanner") (cf : List Nat)
    (s : EngineState) (n : Nat) :
    (reconnectStep cf m s n).toDest =
      if n ∈ cf then s.toDest else addOnce n s.toDest := by
  unfold reconnectStep
  rw [if_neg hm]
  by_cases hcf : n ∈ cf <;> simp [hcf]

theorem rsDefStep_log_extend {m : String} (hm : m ≠ "stereopanner") (cf : List Nat)
    (s : EngineState) (n : Nat) :
    ∃ t, (reconnectStep cf m s n).log = s.log ++ t := by
  unfold reconnectStep
  rw [if_neg hm]
  by_cases hcf : n ∈ cf
  · exact ⟨[evReconnWarn], by simp [hcf]⟩
  · exact ⟨[], by simp [hcf]⟩

theorem rsDefStep_warn {m : String} (hm : m ≠ "stereopanner") (cf : List Nat)
    (s : EngineState) (n : Nat) (hcf : n ∈ cf) :
    evReconnWarn ∈ (reconnectStep cf m s n).log := by
  unfold reconnectStep
  rw [if_neg hm]
  simp [hcf]

theorem rfDef_fields {m : String} (hm : m ≠ "stereopanner") (cf : List Nat)
    (l : List Nat) (s : EngineState) :
    (l.foldl (reconnectStep cf m) s).toPan = s.toPan ∧
    (l.foldl (reconnectStep cf m) s).panToDest = s.panToDest ∧
    (l.foldl (reconnectStep cf m) s).connectedSources = s.connectedSources ∧
    (l.foldl (reconnectStep cf m) s).panner = s.panner ∧
    (l.foldl (reconnectStep cf m) s).currentAudioMode = s.currentAudioMode := by
  induction l generalizing s with
  | nil => exact ⟨rfl, rfl, rfl, rfl, rfl⟩
  | cons n t ih =>
      simp only [List.foldl_cons]
      obtain ⟨h1, h2, h3, h4, h5⟩ := ih (reconnectStep cf m s n)
      obtain ⟨g1, g2, g3, g4, g5⟩ := rsDefStep_fields hm cf s n
      exact ⟨h1.trans g1, h2.trans g2, h3.trans g3, h4.trans g4, h5.trans g5⟩

theorem rfDef_mem_toDest {m : String} (hm : m ≠ "stereopanner") (cf : List Nat)
    (l : List Nat) (s : EngineState) (x : Nat) :
    x ∈ (l.foldl (reconnectStep cf m) s).toDest ↔
      x ∈ s.toDest ∨ (x ∈ l ∧ x ∉ cf) := by
  induction l generalizing s with
  | nil => simp
  | cons n t ih =>
      simp only [List.foldl_cons]
      rw [ih, rsDefStep_toDest hm]
      by_cases hcf : n ∈ cf
      · rw [if_pos hcf]
        simp only [List.mem_cons]
        by_cases hx : x = n
        · subst hx; tauto
        · tauto
      · rw [if_neg hcf]
        simp only [mem_addOnce, List.mem_cons]
        by_cases hx : x = n
        · subst hx; tauto
        · tauto

theorem rfDef_toDest_exact {m : String} (hm : m ≠ "stereopanner") (l : List Nat)
    (s : EngineState) :
    (l.foldl (reconnectStep [] m) s).toDest =
      l.foldl (fun a n => addOnce n a) s.toDest := by
  induction l generalizing s with
  | nil => rfl
  | cons n t ih =>
      simp only [List.foldl_cons]
      rw [ih, rsDefStep_toDest hm]
      simp

theorem rfDef_log_extend {m : String} (hm : m ≠ "stereopanner") (cf : List Nat)
    (l : List Nat) (s : EngineState) :
    ∃ t, (l.foldl (reconnectStep cf m) s).log = s.log ++ t := by
  induction l generalizing s with
  | nil => exact ⟨[], by simp⟩
  | cons n t ih =>
      simp only [List.foldl_cons]
      exact log_extend_trans (rsDefStep_log_extend hm cf s n) (ih _)

theorem rfDef_warn {m : String} (hm : m ≠ "stereopanner") (cf : List Nat)
    (l : List Nat) (s : EngineState) (x : Nat) (hx : x ∈ l) (hcf : x ∈ cf) :
    evReconnWarn ∈ (l.foldl (reconnectStep cf m) s).log := by
  induction l generalizing s with
  | nil => cases hx
  | cons n t ih =>
      simp only [List.foldl_cons]
      rcases List.mem_cons.mp hx with rfl | hxt
      · exact mem_of_log_extend (rfDef_log_extend hm cf t _) (rsDefStep_warn hm cf s x hcf)
      · exact ih _ hxt

theorem rfDef_panValue {m : String} (hm : m ≠ "stereopanner") (cf : List Nat)
    (l : List Nat) (s : EngineState) :
    getCurrentPanValue (l.foldl (reconnectStep cf m) s) = getCurrentPanValue s :=
  panValue_congr (rfDef_fields hm cf l s).2.2.2.1

theorem hasWarn_of_mem {l : List LogEvent} {e : LogEvent} (he : e ∈ l)
    (hl : e.level = LogLevel.warn) : hasWarn l = true := by
  simp only [hasWarn, List.any_eq_true]
  exact ⟨e, he, by simp [hl]⟩

theorem setAudioMode_eq (m : String) (cf df : List Nat) (s : EngineState) :
    (setAudioMode m cf df s).1 =
      { modePhase m cf df s with
          log := (modePhase m cf df s).log ++ [evModeChanged] } := rfl

theorem setAudioMode_snd (m : String) (cf df : List Nat) (s : EngineState) :
    (setAudioMode m cf df s).2 = none := rfl

theorem modePhase_mode (m : String) (cf df : List Nat) (s : EngineState) :
    (modePhase m cf df s).currentAudioMode = m := by
  unfold modePhase reconnectSourcesWithMode
  by_cases hm : m = "stereopanner"
  · subst hm
    rw [rfPan_mode]
  · rw [(rfDef_fields hm cf _ _).2.2.2.2]

theorem setAudioMode_mode (m : String) (cf df : List Nat) (s : EngineState) :
    (setAudioMode m cf df s).1.currentAudioMode = m := by
  rw [setAudioMode_eq]
  exact modePhase_mode m cf df s

theorem modePhase_sources (m : String) (cf df : List Nat) (s : EngineState) :
    (modePhase m cf df s).connectedSources = s.connectedSources := by
  unfold modePhase reconnectSourcesWithMode
  have hs : (disconnectAllSources df { s with log := s.log ++ [evModeChanging] }).connectedSources
      = s.connectedSources :=
    (dAS_fields df _).1
  by_cases hm : m = "stereopanner"
  · subst hm
    rw [rfPan_sources_subset]
    · exact hs
    · intro x hx
      exact hx
  · rw [(rfDef_fields hm cf _ _).2.2.1]
    exact hs

theorem setAudioMode_sources (m : String) (cf df : List Nat) (s : EngineState) :
    (setAudioMode m cf df s).1.connectedSources = s.connectedSources := by
  rw [setAudioMode_eq]
  exact modePhase_sources m cf df s

theorem setAudioMode_panValue (m : String) (cf df : List Nat) (s : EngineState) :
    getCurrentPanValue (setAudioMode m cf df s).1 = getCurrentPanValue s := by
  rw [setAudioMode_eq]
  have h1 : getCurrentPanValue { modePhase m cf df s with
      log := (modePhase m cf df s).log ++ [evModeChanged] } =
      getCurrentPanValue (modePhase m cf df s) := panValue_congr rfl
  rw [h1]
  unfold modePhase reconnectSourcesWithMode
  have h0 : getCurrentPanValue { s with log := s.log ++ [evModeChanging] } =
      getCurrentPanValue s := panValue_congr rfl
  have h2 : getCurrentPanValue { disconnectAllSources df
      { s with log := s.log ++ [evModeChanging] } with currentAudioMode := m } =
      getCurrentPanValue s := by
    have ha : getCurrentPanValue { disconnectAllSources df
        { s with log := s.log ++ [evModeChanging] } with currentAudioMode := m } =
        getCurrentPanValue (disconnectAllSources df
          { s with log := s.log ++ [evModeChanging] }) := panValue_congr rfl
    rw [ha, dAS_panValue, h0]
  by_cases hm : m = "stereopanner"
  · subst hm
    rw [rfPan_panValue]
    exact h2
  · rw [rfDef_panValue hm]
    exact h2

theorem setAudioMode_wires (m : String) (cf df : List Nat) (s : EngineState)
    (n : Nat) (hn : n ∈ s.connectedSources) (hcf : n ∉ cf) :
    (m = "stereopanner" → n ∈ (setAudioMode m cf df s).1.toPan) ∧
    (m ≠ "stereopanner" → n ∈ (setAudioMode m cf df s).1.toDest) := by
  rw [setAudioMode_eq]
  have hs2 : ({ disconnectAllSources df { s with log := s.log ++ [evModeChanging] } with
      currentAudioMode := m }).connectedSources = s.connectedSources :=
    (dAS_fields df _).1
  constructor
  · rintro rfl
    show n ∈ (modePhase _ cf df s).toPan
    unfold modePhase reconnectSourcesWithMode
    rw [rfPan_mem_toPan]
    right
    rw [hs2]
    exact ⟨hn, hcf⟩
  · intro hm
    show n ∈ (modePhase m cf df s).toDest
    unfold modePhase reconnectSourcesWithMode
    rw [rfDef_mem_toDest hm]
    right
    rw [hs2]
    exact ⟨hn, hcf⟩

theorem setAudioMode_no_stale (m : String) (cf : List Nat) (s : EngineState)
    (n : Nat) (hn : n ∈ s.connectedSources) :
    (m = "stereopanner" → n ∉ (setAudioMode m cf [] s).1.toDest) ∧
    (m ≠ "stereopanner" → n ∉ (setAudioMode m cf [] s).1.toPan) := by
  rw [setAudioMode_eq]
  have hs0 : ({ s with log := s.log ++ [evModeChanging] }).connectedSources =
      s.connectedSources := rfl
  constructor
  · rintro rfl
    show n ∉ (modePhase _ cf [] s).toDest
    unfold modePhase reconnectSourcesWithMode
    rw [rfPan_toDest]
    show n ∉ (disconnectAllSources [] _).toDest
    rw [dAS_mem_toDest]
    rintro ⟨-, habs⟩
    exact habs ⟨hn, by simp⟩
  · intro hm
    show n ∉ (modePhase m cf [] s).toPan
    unfold modePhase reconnectSourcesWithMode
    rw [(rfDef_fields hm cf _ _).1]
    show n ∉ (disconnectAllSources [] _).toPan
    rw [dAS_mem_toPan]
    rintro ⟨-, habs⟩
    exact habs ⟨hn, by simp⟩

theorem setAudioMode_panToDest_false (m : String) (cf df : List Nat)
    (s : EngineState) (hm : m ≠ "stereopanner")
    (hp : s.panToDest = true → s.panner.isSome) :
    (setAudioMode m cf df s).1.panToDest = false := by
  rw [setAudioMode_eq]
  show (modePhase m cf df s).panToDest = false
  unfold modePhase reconnectSourcesWithMode
  rw [(rfDef_fields hm cf _ _).2.1]
  show (disconnectAllSources df _).panToDest = false
  rcases hsp : s.panner with _ | p
  · rw [dAS_panToDest_none df rfl]
    cases hpt : s.panToDest
    · rfl
    · have hsome := hp hpt
      rw [hsp] at hsome
      cases hsome
  · exact dAS_panToDest_isSome df rfl

theorem setAudioMode_panToDest_true (df : List Nat) (s : EngineState)
    (hne : s.connectedSources ≠ []) :
    (setAudioMode "stereopanner" [] df s).1.panToDest = true := by
  rw [setAudioMode_eq]
  show (modePhase _ [] df s).panToDest = true
  unfold modePhase reconnectSourcesWithMode
  rw [rfPan_panToDest_exact]
  have : ({ disconnectAllSources df { s with log := s.log ++ [evModeChanging] } with
      currentAudioMode := "stereopanner" }).connectedSources = s.connectedSources :=
    (dAS_fields df _).1
  rw [this]
  rcases hl : s.connectedSources with _ | ⟨a, t⟩
  · cases hne hl
  · simp

theorem setAudioMode_log_extend (m : String) (cf df : List Nat) (s : EngineState) :
    ∃ t, (setAudioMode m cf df s).1.log = s.log ++ t := by
  rw [setAudioMode_eq]
  have h1 : ∃ t, (modePhase m cf df s).log = s.log ++ t := by
    unfold modePhase reconnectSourcesWithMode
    have h0 : ∃ t, ({ disconnectAllSources df { s with log := s.log ++ [evModeChanging] } with
        currentAudioMode := m }).log = s.log ++ t := by
      refine log_extend_trans (⟨[evModeChanging], rfl⟩ :
        ∃ t, ({ s with log := s.log ++ [evModeChanging] } : EngineState).log = s.log ++ t) ?_
      exact dAS_log_extend df _
    by_cases hm : m = "stereopanner"
    · subst hm
      exact log_extend_trans h0 (rfPan_log_extend cf _ _)
    · exact log_extend_trans h0 (rfDef_log_extend hm cf _ _)
  exact log_extend_trans h1 ⟨[evModeChanged], rfl⟩

theorem setAudioMode_warnDisc (m : String) (cf df : List Nat) (s : EngineState)
    (n : Nat) (hn : n ∈ s.connectedSources) (hdf : n ∈ df) :
    evDiscWarn ∈ (setAudioMode m cf df s).1.log := by
  rw [setAudioMode_eq]
  have h1 : evDiscWarn ∈
      (disconnectAllSources df { s with log := s.log ++ [evModeChanging] }).log :=
    dAS_warn df _ n hn hdf
  have h2 : evDiscWarn ∈ (modePhase m cf df s).log := by
    unfold modePhase reconnectSourcesWithMode
    by_cases hm : m = "stereopanner"
    · subst hm
      exact mem_of_log_extend (rfPan_log_extend cf _ _) h1
    · exact mem_of_log_extend (rfDef_log_extend hm cf _ _) h1
  exact mem_of_log_extend ⟨[evModeChanged], rfl⟩ h2

theorem setAudioMode_warnReconn (m : String) (cf df : List Nat) (s : EngineState)
    (n : Nat) (hn : n ∈ s.connectedSources) (hcf : n ∈ cf) :
    evReconnWarn ∈ (setAudioMode m cf df s).1.log := by
  rw [setAudioMode_eq]
  have hs2 : ({ disconnectAllSources df { s with log := s.log ++ [evModeChanging] } with
      currentAudioMode := m }).connectedSources = s.connectedSources :=
    (dAS_fields df _).1
  have h2 : evReconnWarn ∈ (modePhase m cf df s).log := by
    unfold modePhase reconnectSourcesWithMode
    by_cases hm : m = "stereopanner"
    · subst hm
      exact rfPan_warn cf _ _ n (by rw [hs2]; exact hn) hcf
    · exact rfDef_warn hm cf _ _ n (by rw [hs2]; exact hn) hcf
  exact mem_of_log_extend ⟨[evModeChanged], rfl⟩ h2

theorem gspn_mode (v : ℚ) (s : EngineState) :
    (getStereoPannerNode v s).currentAudioMode = s.currentAudioMode :=
  (gspn_fields v s).1

theorem gspn_sources (v : ℚ) (s : EngineState) :
    (getStereoPannerNode v s).connectedSources = s.connectedSources :=
  (gspn_fields v s).2.1

theorem gspn_toDest (v : ℚ) (s : EngineState) :
    (getStereoPannerNode v s).toDest = s.toDest :=
  (gspn_fields v s).2.2.1

theorem gspn_toPan (v : ℚ) (s : EngineState) :
    (getStereoPannerNode v s).toPan = s.toPan :=
  (gspn_fields v s).2.2.2.1

theorem cas_mode (cf : List Nat) (n : Nat) (s : EngineState) :
    (connectAudioSource cf n s).1.currentAudioMode = s.currentAudioMode := by
  unfold connectAudioSource connectAudioThroughStereoPanner
  by_cases hm : s.currentAudioMode = "stereopanner" <;>
    by_cases hcf : n ∈ cf <;>
      simp [hm, hcf, gspn_mode]

theorem cas_mem_sources (cf : List Nat) (n : Nat) (s : EngineState) :
    n ∈ (connectAudioSource cf n s).1.connectedSources := by
  unfold connectAudioSource connectAudioThroughStereoPanner
  by_cases hm : s.currentAudioMode = "stereopanner" <;>
    by_cases hcf : n ∈ cf <;>
      simp [hm, hcf, gspn_sources, mem_addOnce]

theorem cas_count (cf : List Nat) (n : Nat) (s : EngineState)
    (h : s.connectedSources.count n ≤ 1) :
    (connectAudioSource cf n s).1.connectedSources.count n = 1 := by
  unfold connectAudioSource connectAudioThroughStereoPanner
  by_cases hm : s.currentAudioMode = "stereopanner" <;>
    by_cases hcf : n ∈ cf <;>
      simp [hm, hcf, gspn_sources, count_addOnce, count_addOnce h,
        count_addOnce (le_of_eq (count_addOnce h))]

theorem cas_log_lt (n : Nat) (s : EngineState) :
    s.log.length < (connectAudioSource [] n s).1.log.length := by
  unfold connectAudioSource connectAudioThroughStereoPanner getStereoPannerNode
  by_cases hm : s.currentAudioMode = "stereopanner" <;>
    rcases hp : s.panner with _ | p <;>
      (simp [hm, hp]; try omega)

theorem cas_wired (n : Nat) (s : EngineState) :
    (s.currentAudioMode = "stereopanner" →
      n ∈ (connectAudioSource [] n s).1.toPan ∧
      (connectAudioSource [] n s).1.panToDest = true) ∧
    (s.currentAudioMode ≠ "stereopanner" →
      n ∈ (connectAudioSource [] n s).1.toDest) := by
  unfold connectAudioSource connectAudioThroughStereoPanner
  constructor
  · intro hm
    simp [hm, gspn_toPan, mem_addOnce]
  · intro hm
    simp [hm, mem_addOnce]

theorem cas_err (cf : List Nat) (n : Nat) (s : EngineState) (hcf : n ∈ cf) :
    (connectAudioSource cf n s).2 = some AudioErr.connectionError := by
  unfold connectAudioSource connectAudioThroughStereoPanner
  by_cases hm : s.currentAudioMode = "stereopanner" <;> simp [hm, hcf]

theorem addOnce_idem (n : Nat) (l : List Nat) :
    addOnce n (addOnce n l) = addOnce n l := by
  apply addOnce_of_mem
  rw [mem_addOnce]
  right
  rfl

theorem addOnce_isEmpty (n : Nat) (l : List Nat) :
    (addOnce n l).isEmpty = false := by
  unfold addOnce
  by_cases h : n ∈ l
  · rw [if_pos h]
    cases l with
    | nil => cases h
    | cons a t => rfl
  · rw [if_neg h]
    cases l <;> rfl

theorem cas_fields_pan (n : Nat) (s : EngineState)
    (hm : s.currentAudioMode = "stereopanner") :
    (connectAudioSource [] n s).1.currentAudioMode = s.currentAudioMode ∧
    (connectAudioSource [] n s).1.connectedSources = addOnce n s.connectedSources ∧
    (connectAudioSource [] n s).1.toDest = s.toDest ∧
    (connectAudioSource [] n s).1.toPan = addOnce n s.toPan ∧
    (connectAudioSource [] n s).1.panToDest = true ∧
    (connectAudioSource [] n s).1.panner.isSome := by
  unfold connectAudioSource connectAudioThroughStereoPanner getStereoPannerNode
  rcases hp : s.panner with _ | p <;> simp [hm, hp, addOnce_idem]

theorem cas_fields_def (n : Nat) (s : EngineState)
    (hm : ¬ s.currentAudioMode = "stereopanner") :
    (connectAudioSource [] n s).1.currentAudioMode = s.currentAudioMode ∧
    (connectAudioSource [] n s).1.connectedSources = addOnce n s.connectedSources ∧
    (connectAudioSource [] n s).1.toDest = addOnce n s.toDest ∧
    (connectAudioSource [] n s).1.toPan = s.toPan ∧
    (connectAudioSource [] n s).1.panToDest = s.panToDest ∧
    (connectAudioSource [] n s).1.panner = s.panner := by
  unfold connectAudioSource
  simp [hm]

theorem dAS_clean (s : EngineState) (hs : EngineInv s) :
    (disconnectAllSources [] { s with log := s.log ++ [evModeChanging] }).toDest = [] ∧
    (disconnectAllSources [] { s with log := s.log ++ [evModeChanging] }).toPan = [] ∧
    (disconnectAllSources [] { s with log := s.log ++ [evModeChanging] }).panToDest = false := by
  obtain ⟨hnd, hpan, hdef⟩ := hs
  have hsub : ∀ x, x ∈ s.toDest ∨ x ∈ s.toPan → x ∈ s.connectedSources := by
    intro x hx
    by_cases hm : s.currentAudioMode = "stereopanner"
    · obtain ⟨htd, htp, -, -⟩ := hpan hm
      rcases hx with hx | hx
      · rw [htd] at hx
        cases hx
      · rw [htp] at hx
        exact hx
    · obtain ⟨htp, htd, -⟩ := hdef hm
      rcases hx with hx | hx
      · rw [htd] at hx
        exact hx
      · rw [htp] at hx
        cases hx
  refine ⟨?_, ?_, ?_⟩
  · rw [List.eq_nil_iff_forall_not_mem]
    intro x hx
    rw [dAS_mem_toDest] at hx
    replace hx : x ∈ s.toDest ∧ ¬(x ∈ s.connectedSources ∧ x ∉ ([] : List Nat)) := hx
    exact hx.2 ⟨hsub x (Or.inl hx.1), by simp⟩
  · rw [List.eq_nil_iff_forall_not_mem]
    intro x hx
    rw [dAS_mem_toPan] at hx
    replace hx : x ∈ s.toPan ∧ ¬(x ∈ s.connectedSources ∧ x ∉ ([] : List Nat)) := hx
    exact hx.2 ⟨hsub x (Or.inr hx.1), by simp⟩
  · rcases hp : s.panner with _ | p
    · rw [dAS_panToDest_none [] rfl]
      show s.panToDest = false
      by_cases hm : s.currentAudioMode = "stereopanner"
      · obtain ⟨-, -, hptd, hsome⟩ := hpan hm
        rcases hl : s.connectedSources with _ | ⟨a, t⟩
        · rw [hptd, hl]
          rfl
        · have := hsome (by rw [hl]; simp)
          rw [hp] at this
          cases this
      · exact (hdef hm).2.2
    · exact dAS_panToDest_isSome [] rfl

theorem setAudioMode_topology (m : String) (s : EngineState) (hs : EngineInv s) :
    (setAudioMode m [] [] s).1.toDest =
      (if m = "stereopanner" then [] else s.connectedSources) ∧
    (setAudioMode m [] [] s).1.toPan =
      (if m = "stereopanner" then s.connectedSources else []) ∧
    (setAudioMode m [] [] s).1.panToDest =
      (if m = "stereopanner" then !s.connectedSources.isEmpty else false) ∧
    (m = "stereopanner" → s.connectedSources ≠ [] →
      (setAudioMode m [] [] s).1.panner.isSome) := by
  obtain ⟨hA, hB, hC⟩ := dAS_clean s hs
  have hsrc : (disconnectAllSources [] { s with log := s.log ++ [evModeChanging] }).connectedSources
      = s.connectedSources := (dAS_fields [] _).1
  rw [setAudioMode_eq]
  by_cases hm : m = "stereopanner"
  · subst hm
    refine ⟨?_, ?_, ?_, ?_⟩
    · show (modePhase _ [] [] s).toDest = _
      unfold modePhase reconnectSourcesWithMode
      rw [rfPan_toDest, if_pos rfl]
      exact hA
    · show (modePhase _ [] [] s).toPan = _
      unfold modePhase reconnectSourcesWithMode
      rw [rfPan_toPan_exact, if_pos rfl]
      have h0 : ({ disconnectAllSources [] { s with log := s.log ++ [evModeChanging] } with
          currentAudioMode := "stereopanner" }).toPan = [] := hB
      rw [h0, hsrc]  -- fold list over s.connectedSources hmm
      rw [foldl_addOnce_of_disjoint hs.1 (by intro x hx; simp)]
      rfl
    · show (modePhase _ [] [] s).panToDest = _
      unfold modePhase reconnectSourcesWithMode
      rw [rfPan_panToDest_exact, if_pos rfl]
      have h0 : ({ disconnectAllSources [] { s with log := s.log ++ [evModeChanging] } with
          currentAudioMode := "stereopanner" }).panToDest = false := hC
      rw [h0, hsrc]
      simp
    · intro _ hne
      show (modePhase _ [] [] s).panner.isSome
      unfold modePhase reconnectSourcesWithMode
      refine rfPan_isSome_of_ne [] _ ?_
      rw [hsrc]
      exact hne
  · refine ⟨?_, ?_, ?_, ?_⟩
    · show (modePhase m [] [] s).toDest = _
      unfold modePhase reconnectSourcesWithMode
      rw [rfDef_toDest_exact hm, if_neg hm]
      have h0 : ({ disconnectAllSources [] { s with log := s.log ++ [evModeChanging] } with
          currentAudioMode := m }).toDest = [] := hA
      rw [h0, hsrc]
      rw [foldl_addOnce_of_disjoint hs.1 (by intro x hx; simp)]
      rfl
    · show (modePhase m [] [] s).toPan = _
      unfold modePhase reconnectSourcesWithMode
      rw [(rfDef_fields hm [] _ _).1, if_neg hm]
      exact hB
    · show (modePhase m [] [] s).panToDest = _
      unfold modePhase reconnectSourcesWithMode
      rw [(rfDef_fields hm [] _ _).2.1, if_neg hm]
      exact hC
    · intro hcontra
      exact absurd hcontra hm

theorem inv_init : EngineInv initState := by
  unfold EngineInv initState
  refine ⟨List.nodup_nil, ?_, ?_⟩ <;> intro h <;> simp_all

theorem inv_connect (n : Nat) (s : EngineState) (hs : EngineInv s) :
    EngineInv (connectAudioSource [] n s).1 := by
  obtain ⟨hnd, hpan, hdef⟩ := hs
  by_cases hm : s.currentAudioMode = "stereopanner"
  · obtain ⟨c1, c2, c3, c4, c5, c6⟩ := cas_fields_pan n s hm
    obtain ⟨htd, htp, hptd, hsome⟩ := hpan hm
    refine ⟨?_, ?_, ?_⟩
    · rw [c2]
      exact nodup_addOnce hnd
    · intro _
      refine ⟨?_, ?_, ?_, ?_⟩
      · rw [c3, htd]
      · rw [c4, c2, htp]
      · rw [c5, c2, addOnce_isEmpty]
        rfl
      · intro _
        exact c6
    · intro hcontra
      rw [c1] at hcontra
      exact absurd hm hcontra
  · obtain ⟨c1, c2, c3, c4, c5, c6⟩ := cas_fields_def n s hm
    obtain ⟨htp, htd, hptd⟩ := hdef hm
    refine ⟨?_, ?_, ?_⟩
    · rw [c2]
      exact nodup_addOnce hnd
    · intro hcontra
      rw [c1] at hcontra
      exact absurd hcontra hm
    · intro _
      refine ⟨?_, ?_, ?_⟩
      · rw [c4, htp]
      · rw [c3, c2, htd]
      · rw [c5, hptd]

theorem inv_setMode (m : String) (s : EngineState) (hs : EngineInv s) :
    EngineInv (setAudioMode m [] [] s).1 := by
  obtain ⟨h1, h2, h3, h4⟩ := setAudioMode_topology m s hs
  refine ⟨?_, ?_, ?_⟩
  · rw [setAudioMode_sources]
    exact hs.1
  · intro hmod
    rw [setAudioMode_mode] at hmod
    refine ⟨?_, ?_, ?_, ?_⟩
    · rw [h1, if_pos hmod]
    · rw [h2, if_pos hmod, setAudioMode_sources]
    · rw [h3, if_pos hmod, setAudioMode_sources]
    · intro hne
      rw [setAudioMode_sources] at hne
      exact h4 hmod hne
  · intro hmod
    rw [setAudioMode_mode] at hmod
    refine ⟨?_, ?_, ?_⟩
    · rw [h2, if_neg hmod]
    · rw [h1, if_neg hmod, setAudioMode_sources]
    · rw [h3, if_neg hmod]

theorem inv_setPan (v : ℚ) (w : Option ℚ) (s : EngineState) (hs : EngineInv s) :
    EngineInv (setPanValue v w s) := by
  obtain ⟨hnd, hpan, hdef⟩ := hs
  obtain ⟨f1, f2, f3, f4, f5⟩ := setPanValue_fields v w s
  refine ⟨?_, ?_, ?_⟩
  · rw [f2]
    exact hnd
  · intro hmod
    rw [f1] at hmod
    obtain ⟨htd, htp, hptd, _⟩ := hpan hmod
    refine ⟨?_, ?_, ?_, ?_⟩
    · rw [f3, htd]
    · rw [f4, f2, htp]
    · rw [f5, f2, hptd]
    · intro _
      exact setPanValue_isSome v w s
  · intro hmod
    rw [f1] at hmod
    obtain ⟨htp, htd, hptd⟩ := hdef hmod
    refine ⟨?_, ?_, ?_⟩
    · rw [f4, htp]
    · rw [f3, f2, htd]
    · rw [f5, hptd]

theorem reachable_inv {s : EngineState} (h : Reachable s) : EngineInv s := by
  induction h with
  | init => exact inv_init
  | connect n s _ ih => exact inv_connect n s ih
  | mode m s _ ih => exact inv_setMode m s ih
  | pan v w s _ ih => exact inv_setPan v w s ih

theorem hsoc_unrec (cf df : List Nat) (opt : String) (s : EngineState)
    (h1 : opt ≠ "default") (h2 : opt ≠ "stereopanner")
    (h3 : opt ≠ "equalpower") (h4 : opt ≠ "hrtf") :
    handleSoundOptionChange cf df opt s =
      { (setAudioMode opt cf df { s with log := s.log ++ [evSoundOptChanging] }).1 with
          log := (setAudioMode opt cf df
            { s with log := s.log ++ [evSoundOptChanging] }).1.log ++ [evUnknownOpt] } := by
  unfold handleSoundOptionChange setAudioMode
  simp [h1, h2, h3, h4]

/-- C1: for every mode `m` in {default, stereopanner, equalpower, hrtf} and
every state of ConnectedSources, after `setAudioMode(m)` completes normally
(fault-free run, no exception), every source in ConnectedSources is connected
according to `m`'s rule — through the pan node (which is itself connected to
the destination) for `stereopanner`, directly to the destination otherwise —
and no source retains a connection matching the other rule; for non-pan modes
the pan node keeps no outgoing connection (`hp` states that the starting state
is physically possible: a pan-to-destination edge implies that the pan node
exists). -/
theorem C1_setAudioMode_rewires_per_mode (m : String) (s : EngineState)
    (hm : m = "default" ∨ m = "stereopanner" ∨ m = "equalpower" ∨ m = "hrtf")
    (hp : s.panToDest = true → s.panner.isSome) :
    (setAudioMode m [] [] s).2 = none ∧
    (∀ n ∈ s.connectedSources,
      (m = "stereopanner" →
        n ∈ (setAudioMode m [] [] s).1.toPan ∧
        n ∉ (setAudioMode m [] [] s).1.toDest ∧
        (setAudioMode m [] [] s).1.panToDest = true) ∧
      (m ≠ "stereopanner" →
        n ∈ (setAudioMode m [] [] s).1.toDest ∧
        n ∉ (setAudioMode m [] [] s).1.toPan)) ∧
    (m ≠ "stereopanner" → (setAudioMode m [] [] s).1.panToDest = false) := by
  refine ⟨setAudioMode_snd m [] [] s, ?_, ?_⟩
  · intro n hn
    constructor
    · rintro rfl
      refine ⟨(setAudioMode_wires _ [] [] s n hn (by simp)).1 rfl,
        (setAudioMode_no_stale _ [] s n hn).1 rfl, ?_⟩
      exact setAudioMode_panToDest_true [] s (by intro h0; rw [h0] at hn; cases hn)
    · intro hne
      exact ⟨(setAudioMode_wires m [] [] s n hn (by simp)).2 hne,
        (setAudioMode_no_stale m [] s n hn).2 hne⟩
  · intro hne
    exact setAudioMode_panToDest_false m [] [] s hne hp

theorem C1_witness :
    ("stereopanner" = "default" ∨ "stereopanner" = "stereopanner" ∨
      "stereopanner" = "equalpower" ∨ "stereopanner" = "hrtf") ∧
    (oneSourceState.panToDest = true → oneSourceState.panner.isSome) ∧
    4 ∈ (setAudioMode "stereopanner" [] [] oneSourceState).1.toPan ∧
    4 ∉ (setAudioMode "stereopanner" [] [] oneSourceState).1.toDest ∧
    (setAudioMode "stereopanner" [] [] oneSourceState).1.panToDest = true :=
  ⟨by decide, by decide,
    ((C1_setAudioMode_rewires_per_mode "stereopanner" oneSourceState (by decide)
      (by decide)).2.1 4 (by decide)).1 rfl⟩

/-- C2, counterexample to the claim as stated: calling `setAudioMode` itself
with the unrecognized string `"surround"` raises no exception and records NO
warning through the logging collaborator (all of `setAudioMode`'s own log
calls in a fault-free run are info-level); the warning of the claim is not
produced by `setAudioMode`. -/
theorem C2_counterexample_setAudioMode_no_warn :
    (setAudioMode "surround" [] [] oneSourceState).2 = none ∧
    hasWarn (setAudioMode "surround" [] [] oneSourceState).1.log = false := by
  decide

/-- C2, amended: for every string not in {default, stereopanner, equalpower,
hrtf}, `setAudioMode` raises no exception and every tracked source ends up
wired as in default mode (directly to the output destination, not through the
pan node); the warning is recorded by the middleware sound-option handler
`_handleSoundOptionChange`, not by `setAudioMode` itself. -/
theorem C2_amended_unrecognized_mode (opt : String) (s : EngineState)
    (h1 : opt ≠ "default") (h2 : opt ≠ "stereopanner")
    (h3 : opt ≠ "equalpower") (h4 : opt ≠ "hrtf") :
    (setAudioMode opt [] [] s).2 = none ∧
    (∀ n ∈ s.connectedSources,
      n ∈ (handleSoundOptionChange [] [] opt s).toDest ∧
      n ∉ (handleSoundOptionChange [] [] opt s).toPan) ∧
    evUnknownOpt ∈ (handleSoundOptionChange [] [] opt s).log ∧
    hasWarn (handleSoundOptionChange [] [] opt s).log = true := by
  have hr := hsoc_unrec [] [] opt s h1 h2 h3 h4
  have hmem : evUnknownOpt ∈ (handleSoundOptionChange [] [] opt s).log := by
    rw [hr]
    simp
  refine ⟨setAudioMode_snd opt [] [] s, ?_, hmem, hasWarn_of_mem hmem rfl⟩
  intro n hn
  have hn0 : n ∈ ({ s with log := s.log ++ [evSoundOptChanging] } :
      EngineState).connectedSources := hn
  constructor
  · rw [hr]
    exact (setAudioMode_wires opt [] [] _ n hn0 (by simp)).2 h2
  · rw [hr]
    exact (setAudioMode_no_stale opt [] _ n hn0).2 h2

theorem C2_witness :
    (("surround" : String) ≠ "default") ∧ (("surround" : String) ≠ "stereopanner") ∧
    (("surround" : String) ≠ "equalpower") ∧ (("surround" : String) ≠ "hrtf") ∧
    (setAudioMode "surround" [] [] oneSourceState).2 = none ∧
    4 ∈ (handleSoundOptionChange [] [] "surround" oneSourceState).toDest ∧
    4 ∉ (handleSoundOptionChange [] [] "surround" oneSourceState).toPan ∧
    hasWarn (handleSoundOptionChange [] [] "surround" oneSourceState).log = true :=
  ⟨by decide, by decide, by decide, by decide,
    (C2_amended_unrecognized_mode "surround" oneSourceState (by decide) (by decide)
      (by decide) (by decide)).1,
    ((C2_amended_unrecognized_mode "surround" oneSourceState (by decide) (by decide)
      (by decide) (by decide)).2.1 4 (by decide)).1,
    ((C2_amended_unrecognized_mode "surround" oneSourceState (by decide) (by decide)
      (by decide) (by decide)).2.1 4 (by decide)).2,
    (C2_amended_unrecognized_mode "surround" oneSourceState (by decide) (by decide)
      (by decide) (by decide)).2.2.2⟩

/-- C3: during the reconnection phase of `setAudioMode`, the failure of any
single source's rewiring is caught (no exception leaves `setAudioMode`),
logged as a warning, and skipped, and every remaining (non-faulty) source is
still reconnected according to the new mode. -/
theorem C3_reconnect_failure_isolated (m : String) (cf : List Nat)
    (s : EngineState) :
    (setAudioMode m cf [] s).2 = none ∧
    (∀ n ∈ s.connectedSources, n ∉ cf →
      (m = "stereopanner" → n ∈ (setAudioMode m cf [] s).1.toPan) ∧
      (m ≠ "stereopanner" → n ∈ (setAudioMode m cf [] s).1.toDest)) ∧
    (∀ n ∈ s.connectedSources, n ∈ cf →
      evReconnWarn ∈ (setAudioMode m cf [] s).1.log) := by
  refine ⟨setAudioMode_snd m cf [] s, ?_, ?_⟩
  · intro n hn hncf
    exact setAudioMode_wires m cf [] s n hn hncf
  · intro n hn hcf
    exact setAudioMode_warnReconn m cf [] s n hn hcf

theorem C3_witness :
    (setAudioMode "default" [7] [] twoSourceState).2 = none ∧
    3 ∈ (setAudioMode "default" [7] [] twoSourceState).1.toDest ∧
    evReconnWarn ∈ (setAudioMode "default" [7] [] twoSourceState).1.log :=
  ⟨(C3_reconnect_failure_isolated "default" [7] twoSourceState).1,
    ((C3_reconnect_failure_isolated "default" [7] twoSourceState).2.1 3 (by decide)
      (by decide)).2 (by decide),
    (C3_reconnect_failure_isolated "default" [7] twoSourceState).2.2 7 (by decide)
      (by decide)⟩

/-- C4: the pan value survives every `setAudioMode` call (with arbitrary
faults), and in particular the concrete excursion of the claim — set pan to
0.7 in `stereopanner` mode, switch to `default`, switch back to
`stereopanner` — reads back 0.7. -/
theorem C4_pan_persists_across_mode_switch :
    (∀ (m : String) (cf df : List Nat) (s : EngineState),
      getCurrentPanValue (setAudioMode m cf df s).1 = getCurrentPanValue s) ∧
    getCurrentPanValue
      (setAudioMode "stereopanner" [] []
        (setAudioMode "default" [] []
          (setPanValue (7/10) none
            (setAudioMode "stereopanner" [] [] initState).1)).1).1 = 7/10 := by
  refine ⟨setAudioMode_panValue, ?_⟩
  rw [setAudioMode_panValue, setAudioMode_panValue, setPanValue_panValue]
  norm_num [clamp]

/-- C5: `setPanValue` stores `max(-1, min(1, v))`: assigned immediately to the
pan value when `atTime` is omitted, and appended as a `setValueAtTime` event
at the given time (leaving the current value untouched) when provided. -/
theorem C5_setPanValue_clamps (v : ℚ) (w : Option ℚ) (s : EngineState) :
    (w = none → getCurrentPanValue (setPanValue v w s) = max (-1) (min 1 v)) ∧
    (∀ t : ℚ, w = some t → ∃ p, (setPanValue v w s).panner = some p ∧
      p.events.getLast? = some (t, max (-1) (min 1 v)) ∧
      p.value = getCurrentPanValue s) := by
  constructor
  · rintro rfl
    rw [setPanValue_panValue, clamp_eq_maxmin]
  · rintro t rfl
    obtain ⟨p, hp1, hp2, hp3⟩ := setPanValue_sched v t s
    refine ⟨p, hp1, ?_, hp3⟩
    rw [← clamp_eq_maxmin]
    exact hp2

theorem C5_witness :
    ((none : Option ℚ) = none) ∧
    getCurrentPanValue (setPanValue 2 none initState) = max (-1) (min 1 2) :=
  ⟨rfl, (C5_setPanValue_clamps 2 none initState).1 rfl⟩

/-- C6: connecting the same source twice leaves exactly one entry for it in
ConnectedSources, while the second call still performs the wiring step for the
current mode (it emits a further log record and the per-mode edge is in
place). -/
theorem C6_connect_twice_single_entry (n : Nat) (s : EngineState)
    (hc : s.connectedSources.count n ≤ 1) :
    (connectAudioSource [] n (connectAudioSource [] n s).1).1.connectedSources.count n = 1 ∧
    (connectAudioSource [] n s).1.log.length <
      (connectAudioSource [] n (connectAudioSource [] n s).1).1.log.length ∧
    (s.currentAudioMode = "stereopanner" →
      n ∈ (connectAudioSource [] n (connectAudioSource [] n s).1).1.toPan) ∧
    (s.currentAudioMode ≠ "stereopanner" →
      n ∈ (connectAudioSource [] n (connectAudioSource [] n s).1).1.toDest) := by
  have h1 : (connectAudioSource [] n s).1.connectedSources.count n = 1 :=
    cas_count [] n s hc
  have hmode : (connectAudioSource [] n s).1.currentAudioMode =
      s.currentAudioMode := cas_mode [] n s
  refine ⟨cas_count [] n _ (le_of_eq h1), cas_log_lt n _, ?_, ?_⟩
  · intro hm
    exact ((cas_wired n _).1 (by rw [hmode]; exact hm)).1
  · intro hm
    exact (cas_wired n _).2 (by rw [hmode]; exact hm)

theorem C6_witness :
    initState.connectedSources.count 5 ≤ 1 ∧
    (connectAudioSource [] 5 (connectAudioSource [] 5 initState).1).1.connectedSources.count 5 = 1 ∧
    5 ∈ (connectAudioSource [] 5 (connectAudioSource [] 5 initState).1).1.toDest :=
  ⟨by decide, (C6_connect_twice_single_entry 5 initState (by decide)).1,
    (C6_connect_twice_single_entry 5 initState (by decide)).2.2.2 (by decide)⟩

/-- C7: self-transition idempotence — on every reachable engine state, calling
`setAudioMode(getCurrentAudioMode())` leaves the wiring topology (direct
edges, through-pan edges, the pan-to-destination edge), the tracked source
set, and the pan value identical to before the call, even though a full
disconnect/reconnect cycle is performed internally. -/
theorem C7_self_transition_topology_idempotent (s : EngineState)
    (h : Reachable s) :
    (setAudioMode (getCurrentAudioMode s) [] [] s).1.toDest = s.toDest ∧
    (setAudioMode (getCurrentAudioMode s) [] [] s).1.toPan = s.toPan ∧
    (setAudioMode (getCurrentAudioMode s) [] [] s).1.panToDest = s.panToDest ∧
    (setAudioMode (getCurrentAudioMode s) [] [] s).1.connectedSources =
      s.connectedSources ∧
    getCurrentPanValue (setAudioMode (getCurrentAudioMode s) [] [] s).1 =
      getCurrentPanValue s := by
  have hs := reachable_inv h
  obtain ⟨h1, h2, h3, h4⟩ := setAudioMode_topology (getCurrentAudioMode s) s hs
  obtain ⟨hnd, hpan, hdef⟩ := hs
  by_cases hm : s.currentAudioMode = "stereopanner"
  · obtain ⟨htd, htp, hptd, hsome⟩ := hpan hm
    have hmod : getCurrentAudioMode s = "stereopanner" := hm
    refine ⟨?_, ?_, ?_, setAudioMode_sources _ [] [] s, setAudioMode_panValue _ [] [] s⟩
    · rw [h1, if_pos hmod, htd]
    · rw [h2, if_pos hmod, htp]
    · rw [h3, if_pos hmod, hptd]
  · have hmod : ¬ getCurrentAudioMode s = "stereopanner" := hm
    obtain ⟨htp, htd, hptd⟩ := hdef hm
    refine ⟨?_, ?_, ?_, setAudioMode_sources _ [] [] s, setAudioMode_panValue _ [] [] s⟩
    · rw [h1, if_neg hmod, htd]
    · rw [h2, if_neg hmod, htp]
    · rw [h3, if_neg hmod, hptd]

theorem C7_witness :
    Reachable (connectAudioSource [] 2 initState).1 ∧
    (setAudioMode (getCurrentAudioMode (connectAudioSource [] 2 initState).1) [] []
        (connectAudioSource [] 2 initState).1).1.toDest =
      (connectAudioSource [] 2 initState).1.toDest ∧
    (setAudioMode (getCurrentAudioMode (connectAudioSource [] 2 initState).1) [] []
        (connectAudioSource [] 2 initState).1).1.toPan =
      (connectAudioSource [] 2 initState).1.toPan :=
  ⟨Reachable.connect 2 initState Reachable.init,
    (C7_self_transition_topology_idempotent _
      (Reachable.connect 2 initState Reachable.init)).1,
    (C7_self_transition_topology_idempotent _
      (Reachable.connect 2 initState Reachable.init)).2.1⟩

/-- C8: when the wiring step inside `connectAudioSource` fails and the error
is propagated to the caller, the source has already been added to
ConnectedSources and is not removed, so any later `setAudioMode` (fault-free)
rewires it according to the new mode. -/
theorem C8_failed_connect_keeps_source_tracked (n : Nat) (cf : List Nat)
    (s : EngineState) (hcf : n ∈ cf) :
    (connectAudioSource cf n s).2 = some AudioErr.connectionError ∧
    n ∈ (connectAudioSource cf n s).1.connectedSources ∧
    (∀ m : String,
      (m = "stereopanner" →
        n ∈ (setAudioMode m [] [] (connectAudioSource cf n s).1).1.toPan) ∧
      (m ≠ "stereopanner" →
        n ∈ (setAudioMode m [] [] (connectAudioSource cf n s).1).1.toDest)) := by
  refine ⟨cas_err cf n s hcf, cas_mem_sources cf n s, ?_⟩
  intro m
  exact setAudioMode_wires m [] [] _ n (cas_mem_sources cf n s) (by simp)

theorem C8_witness :
    6 ∈ [6] ∧
    (connectAudioSource [6] 6 initState).2 = some AudioErr.connectionError ∧
    6 ∈ (connectAudioSource [6] 6 initState).1.connectedSources ∧
    6 ∈ (setAudioMode "hrtf" [] [] (connectAudioSource [6] 6 initState).1).1.toDest :=
  ⟨by decide,
    (C8_failed_connect_keeps_source_tracked 6 [6] initState (by decide)).1,
    (C8_failed_connect_keeps_source_tracked 6 [6] initState (by decide)).2.1,
    ((C8_failed_connect_keeps_source_tracked 6 [6] initState (by decide)).2.2
      "hrtf").2 (by decide)⟩

/-- C9: `getCurrentAudioMode` returns exactly the string passed to the most
recent `setAudioMode` call — any string, including unrecognized ones such as
`"surround"`, is stored verbatim and never normalized. -/
theorem C9_getCurrentAudioMode_verbatim (m : String) (cf df : List Nat)
    (s : EngineState) :
    getCurrentAudioMode (setAudioMode m cf df s).1 = m :=
  setAudioMode_mode m cf df s

/-- C10: a failure while disconnecting an individual source during the
disconnect phase of `setAudioMode` is caught, logged as a warning and skipped:
the mode is still updated and every source is still reconnected according to
the new mode, and no exception leaves `setAudioMode`. -/
theorem C10_disconnect_failure_isolated (m : String) (df : List Nat)
    (s : EngineState) :
    (setAudioMode m [] df s).2 = none ∧
    (setAudioMode m [] df s).1.currentAudioMode = m ∧
    (∀ n ∈ s.connectedSources,
      (m = "stereopanner" → n ∈ (setAudioMode m [] df s).1.toPan) ∧
      (m ≠ "stereopanner" → n ∈ (setAudioMode m [] df s).1.toDest)) ∧
    (∀ n ∈ s.connectedSources, n ∈ df →
      evDiscWarn ∈ (setAudioMode m [] df s).1.log) := by
  refine ⟨setAudioMode_snd m [] df s, setAudioMode_mode m [] df s, ?_, ?_⟩
  · intro n hn
    exact setAudioMode_wires m [] df s n hn (by simp)
  · intro n hn hdf
    exact setAudioMode_warnDisc m [] df s n hn hdf

theorem C10_witness :
    (setAudioMode "stereopanner" [] [3] twoSourceState).2 = none ∧
    (setAudioMode "stereopanner" [] [3] twoSourceState).1.currentAudioMode =
      "stereopanner" ∧
    3 ∈ (setAudioMode "stereopanner" [] [3] twoSourceState).1.toPan ∧
    evDiscWarn ∈ (setAudioMode "stereopanner" [] [3] twoSourceState).1.log :=
  ⟨(C10_disconnect_failure_isolated "stereopanner" [3] twoSourceState).1,
    (C10_disconnect_failure_isolated "stereopanner" [3] twoSourceState).2.1,
    ((C10_disconnect_failure_isolated "stereopanner" [3] twoSourceState).2.2.1 3
      (by decide)).1 rfl,
    (C10_disconnect_failure_isolated "stereopanner" [3] twoSourceState).2.2.2 3
      (by decide) (by decide)⟩
